import Mathlib

/-!
Verification of the VFC provider scraper (files `vfc_cli.py`,
`scrape_vfc_providers.py`, `batch_extract_all_counties.py`).

The Python code is shallowly embedded: pure record processing becomes Lean
functions on lists; the single HTTP request made by `fetch_providers` becomes
an explicit `FetchResponse` value; the standard-library XML parser
(`xml.etree.ElementTree.fromstring`, external to the repository) is a
parameter `xmlParse` of the parsing pipeline; the regex fallback of
`fetch_providers` is embedded concretely, following the matching semantics of
the three regular expressions appearing in the source.  Python floats are
modelled as rationals and CPython `float(str)` as a parser of plain decimal
literals.
-/

/-- A provider record as built by `fetch_providers` (both copies):
the seven dictionary fields `name address phone type lat lng distance`. -/
structure Provider where
  name : String
  address : String
  phone : String
  type : String
  lat : ℚ
  lng : ℚ
  distance : ℚ
deriving DecidableEq, Repr

/-! ### String helpers modelling Python primitives -/

/-- Python's `str.upper` restricted to ASCII, on an exploded string. -/
def upperChars (s : List Char) : List Char := s.map Char.toUpper

/-- Python's substring test `needle in hay` on exploded strings. -/
def strContainsL (hay needle : List Char) : Bool :=
  match hay with
  | [] => needle.isEmpty
  | _ :: tl => needle.isPrefixOf hay || strContainsL tl needle

/-- Python's `hay.find(needle)`: index of the first occurrence, `none` for -1. -/
def pyFind (needle : List Char) : List Char → Option Nat
  | [] => if needle.isEmpty then some 0 else none
  | c :: tl =>
    if needle.isPrefixOf (c :: tl) then some 0
    else (pyFind needle tl).map (· + 1)

/-- One fuelled step list for `str.replace` (all non-overlapping occurrences,
left to right; only used with a non-empty pattern, for which the fuel
`s.length` is always sufficient). -/
def replOcc (pat rep : List Char) : Nat → List Char → List Char
  | 0, s => s
  | _ + 1, [] => []
  | fuel + 1, c :: cs =>
    if pat.isPrefixOf (c :: cs) then
      rep ++ replOcc pat rep fuel (List.drop pat.length (c :: cs))
    else
      c :: replOcc pat rep fuel cs

/-- Python's `s.replace(pat, rep)` for a non-empty `pat`. -/
def pyReplace (s pat rep : String) : String :=
  String.mk (replOcc pat.toList rep.toList s.toList.length s.toList)

/-- Digits of a decimal numeral to a natural number. -/
def natOfDigits (ds : List Char) : Nat :=
  ds.foldl (fun n c => 10 * n + (c.toNat - 48)) 0

/-- Split a list at the first occurrence of character `c`, dropping it. -/
def splitAtChar (c : Char) : List Char → Option (List Char × List Char)
  | [] => none
  | x :: xs =>
    if x = c then some ([], xs)
    else (splitAtChar c xs).map (fun p => (x :: p.1, p.2))

/-- Python's `\s` class (ASCII part). -/
def pySpace (c : Char) : Bool :=
  c = ' ' || c = '\t' || c = '\n' || c = '\r' || c = '\x0b' || c = '\x0c'

/-- Models CPython `float(s)` on plain decimal literals (optional surrounding
whitespace, optional sign, digits with at most one point, at least one digit):
`none` models the `ValueError` raised on any other string. -/
def pyFloat (s : String) : Option ℚ :=
  let t := (s.toList.dropWhile pySpace).reverse.dropWhile pySpace |>.reverse
  let signed : Bool × List Char :=
    match t with
    | '-' :: rest => (true, rest)
    | '+' :: rest => (false, rest)
    | _ => (false, t)
  let body := signed.2
  let mag : Option ℚ :=
    match splitAtChar '.' body with
    | none =>
      if body ≠ [] ∧ body.all Char.isDigit then some (natOfDigits body : ℚ)
      else none
    | some (ip, fp) =>
      if (ip ≠ [] ∨ fp ≠ []) ∧ ip.all Char.isDigit ∧ fp.all Char.isDigit ∧
          ¬ fp.contains '.' then
        some ((natOfDigits ip : ℚ) + (natOfDigits fp : ℚ) / (10 : ℚ) ^ fp.length)
      else none
  mag.map (fun q => if signed.1 then -q else q)

/-! ### The county tables of `vfc_cli.py` -/

/-- `CALIFORNIA_COUNTIES`: county name to approximate seat coordinate
(insertion order of the Python dict). -/
def CALIFORNIA_COUNTIES : List (String × ℚ × ℚ) := [
  ("Alameda", (37.8044, -122.2712)),
  ("Alpine", (38.5961, -119.8104)),
  ("Amador", (38.3485, -120.7705)),
  ("Butte", (39.7285, -121.8375)),
  ("Calaveras", (38.2039, -120.6803)),
  ("Colusa", (39.2138, -122.0084)),
  ("Contra Costa", (37.9358, -122.3477)),
  ("Del Norte", (41.7557, -124.2025)),
  ("El Dorado", (38.6778, -121.1750)),
  ("Fresno", (36.7378, -119.7871)),
  ("Glenn", (39.5982, -122.3919)),
  ("Humboldt", (40.8665, -124.0828)),
  ("Imperial", (32.8472, -115.5694)),
  ("Inyo", (36.5107, -117.0973)),
  ("Kern", (35.3733, -119.0187)),
  ("Kings", (36.3275, -119.6457)),
  ("Lake", (39.0442, -122.9124)),
  ("Lassen", (40.4163, -120.6530)),
  ("Los Angeles", (34.0522, -118.2437)),
  ("Madera", (37.1553, -119.7663)),
  ("Marin", (38.0834, -122.7633)),
  ("Mariposa", (37.4849, -119.9663)),
  ("Mendocino", (39.1501, -123.2078)),
  ("Merced", (37.3022, -120.4829)),
  ("Modoc", (41.4479, -120.4677)),
  ("Mono", (37.9396, -119.0023)),
  ("Monterey", (36.6002, -121.8946)),
  ("Napa", (38.2975, -122.2869)),
  ("Nevada", (39.2618, -121.0182)),
  ("Orange", (33.7879, -117.8531)),
  ("Placer", (38.9544, -121.0972)),
  ("Plumas", (40.0390, -120.8415)),
  ("Riverside", (33.9533, -117.3962)),
  ("Sacramento", (38.5816, -121.4944)),
  ("San Benito", (36.8527, -121.4014)),
  ("San Bernardino", (34.1083, -117.2898)),
  ("San Diego", (32.7157, -117.1611)),
  ("San Francisco", (37.7749, -122.4194)),
  ("San Joaquin", (37.9537, -121.2908)),
  ("San Luis Obispo", (35.2828, -120.6596)),
  ("San Mateo", (37.5629, -122.3255)),
  ("Santa Barbara", (34.4208, -119.6982)),
  ("Santa Clara", (37.3541, -121.9552)),
  ("Santa Cruz", (36.9741, -122.0308)),
  ("Shasta", (40.5865, -122.3917)),
  ("Sierra", (39.6240, -120.5170)),
  ("Siskiyou", (41.7375, -122.6344)),
  ("Solano", (38.2494, -122.0409)),
  ("Sonoma", (38.2919, -122.4580)),
  ("Stanislaus", (37.6387, -120.9967)),
  ("Sutter", (39.1404, -121.6199)),
  ("Tehama", (40.1785, -122.2358)),
  ("Trinity", (40.7381, -123.0203)),
  ("Tulare", (36.2077, -119.3471)),
  ("Tuolumne", (37.9847, -120.3821)),
  ("Ventura", (34.2746, -119.2290)),
  ("Yolo", (38.5419, -121.7398)),
  ("Yuba", (39.1404, -121.6199))]

/-- The `county_to_cities` table local to `filter_by_county`. -/
def county_to_cities : List (String × List String) := [
  ("Alameda", ["Alameda", "Oakland", "Berkeley", "Fremont"]),
  ("Contra Costa", ["Contra Costa", "Martinez", "Richmond", "Concord", "Pleasant Hill"]),
  ("Fresno", ["Fresno", "Clovis", "Sanger"]),
  ("Kern", ["Kern", "Bakersfield"]),
  ("Los Angeles", ["Los Angeles", "LA", "L.A.", "Beverly Hills", "Long Beach", "Pasadena"]),
  ("Orange", ["Orange", "Santa Ana", "Anaheim", "Irvine", "Huntington Beach"]),
  ("Riverside", ["Riverside", "Palm Springs", "Moreno Valley", "Corona"]),
  ("Sacramento", ["Sacramento", "Folsom", "Elk Grove"]),
  ("San Bernardino", ["San Bernardino", "Fontana", "Rancho Cucamonga", "Ontario"]),
  ("San Diego", ["San Diego", "Chula Vista", "Oceanside"]),
  ("San Francisco", ["San Francisco", "SF"]),
  ("San Joaquin", ["San Joaquin", "Stockton", "Lodi", "Tracy"]),
  ("Santa Clara", ["Santa Clara", "San Jose", "Sunnyvale", "Palo Alto", "Cupertino", "Mountain View"]),
  ("Stanislaus", ["Stanislaus", "Modesto", "Turlock", "Ceres"])]

/-! ### The response-parsing pipeline of `vfc_cli.fetch_providers`

The single blocking HTTP request is reified as a `FetchResponse`; the two
`except` clauses of the source become the first two constructors.  The strict
XML parser (`ET.fromstring` + `root.findall`) is library code external to the
repository and is passed in as `xmlParse`, returning for each `marker` element
its attribute list, or `none` when `ET.ParseError` is raised. -/

/-- Outcome of `requests.get` + `raise_for_status` for one query point. -/
inductive FetchResponse where
  /-- A network-level exception (timeout, connection error). -/
  | netFailure : FetchResponse
  /-- `raise_for_status` raised on an HTTP non-success status. -/
  | httpError (code : Nat) : FetchResponse
  /-- A successful response with the given body text. -/
  | success (body : String) : FetchResponse

/-- An attribute map, as Python builds `dict`s: insertion-ordered association
list with pairwise-distinct keys maintained by `upsertAttr`. -/
abbrev Attrs := List (String × String)

/-- Python `attrs[k] = v`: update in place if present, else append. -/
def upsertAttr (k v : String) : Attrs → Attrs
  | [] => [(k, v)]
  | (k0, v0) :: tl =>
    if k0 = k then (k0, v) :: tl else (k0, v0) :: upsertAttr k v tl

/-- Fold a list of regex captures into a dict, Python-style. -/
def dictOf (pairs : List (String × String)) (init : Attrs) : Attrs :=
  pairs.foldl (fun acc p => upsertAttr p.1 p.2 acc) init

/-- `attrs.get(k, '')` / `marker.get(k, '')`. -/
def attrGet (attrs : Attrs) (k : String) : String :=
  match List.lookup k attrs with
  | some v => v
  | none => ""

/-- `float(attrs.get(k, 0))`: a missing attribute yields the numeric default
`0`; a present attribute is parsed, `none` modelling the `ValueError`. -/
def attrGetNum (attrs : Attrs) (k : String) : Option ℚ :=
  match List.lookup k attrs with
  | some v => pyFloat v
  | none => some 0

/-- Building one provider dict from an attribute map; `none` models the
`ValueError` raised by `float` on an unparsable numeric attribute. -/
def buildProvider (attrs : Attrs) : Option Provider :=
  match attrGetNum attrs ("lat"), attrGetNum attrs ("lng"),
      attrGetNum attrs ("distance") with
  | some la, some ln, some d =>
    some { name := attrGet attrs ("name"), address := attrGet attrs ("address"),
           phone := attrGet attrs ("phone"), type := attrGet attrs ("type"),
           lat := la, lng := ln, distance := d }
  | _, _, _ => none

/-- The strict-path marker loop (lines 104-114 of `vfc_cli.py`): the first
`ValueError` escapes the inner `try` (which only catches `ET.ParseError`)
and aborts the whole fetch. -/
def buildStrict : List Attrs → Except Unit (List Provider)
  | [] => Except.ok []
  | m :: ms =>
    match buildProvider m with
    | some p =>
      match buildStrict ms with
      | Except.ok ps => Except.ok (p :: ps)
      | Except.error e => Except.error e
    | none => Except.error ()

/-- Number of leading characters satisfying `p`. -/
def countLeading (p : Char → Bool) : List Char → Nat
  | [] => 0
  | c :: tl => if p c then countLeading p tl + 1 else 0

/-- Python `\w` (ASCII part). -/
def isWordChar (c : Char) : Bool := c.isAlphanum || c = '_'

/-- `re.findall` for the attribute pattern `(\w+)=Q([^Q]*)Q` with quote
character `q`: leftmost, non-overlapping scan.  At a given position a match
exists iff a maximal non-empty word-character run is followed by `=`, the
quote, a quote-free value and a closing quote. -/
def scanAttrs (q : Char) : Nat → List Char → List (String × String)
  | 0, _ => []
  | _ + 1, [] => []
  | fuel + 1, s =>
    let w := countLeading isWordChar s
    if w = 0 then scanAttrs q fuel (s.drop 1)
    else
      match s.drop w with
      | e :: qc :: rest =>
        if e = '=' ∧ qc = q then
          match splitAtChar q rest with
          | some (v, after) =>
            (String.mk (s.take w), String.mk v) :: scanAttrs q fuel after
          | none => []
        else scanAttrs q fuel (s.drop w)
      | _ => scanAttrs q fuel (s.drop w)

/-- The literal `<marker` of the marker pattern. -/
def markerOpen : List Char := ("<marker").toList

/-- The capture of the marker pattern `<marker\s+([^>]+)/>` once a match is
established: `content` is everything between `<marker` and the first `>`;
the greedy `\s+` keeps the leading whitespace run out of the capture except
when the capture would otherwise be empty, in which case one whitespace
character is given back to it. -/
def markerCapture (content : List Char) : List Char :=
  let body := content.dropLast
  let w := countLeading pySpace body
  if w < body.length then body.drop w else body.drop (body.length - 1)

/-- `re.findall(r'<marker\s+([^>]+)/>', content)`: leftmost non-overlapping
matches.  A match at a position requires the literal `<marker`, at least one
whitespace character, and the first subsequent `>` to be preceded by `/` with
room for a non-empty capture between. -/
def scanMarkers : Nat → List Char → List (List Char)
  | 0, _ => []
  | _ + 1, [] => []
  | fuel + 1, s =>
    if markerOpen.isPrefixOf s then
      let rest := s.drop 7
      if (rest.take 1).all pySpace ∧ rest ≠ [] then
        match splitAtChar '>' rest with
        | some (content, after) =>
          if 3 ≤ content.length ∧ content.getLast? = some '/' then
            markerCapture content :: scanMarkers fuel after
          else scanMarkers fuel (s.drop 1)
        | none => scanMarkers fuel (s.drop 1)
      else scanMarkers fuel (s.drop 1)
    else scanMarkers fuel (s.drop 1)

/-- The attribute-extraction step of the tolerant fallback (lines 122-135):
double-quoted attributes are collected first; single-quoted attributes are
consulted only when fewer than 5 attributes were found, and are merged into
the same dict. -/
def extractAttrs (m : List Char) : Attrs :=
  let attrs := dictOf (scanAttrs '"' m.length m) []
  if attrs.length < 5 then dictOf (scanAttrs '\'' m.length m) attrs
  else attrs

/-- The per-match loop of the tolerant fallback: an empty attribute dict is
skipped (`if attrs:`), and a `ValueError` from `float` skips just that
record (`except ... continue`). -/
def fallbackBuild : List Attrs → List Provider
  | [] => []
  | attrs :: tl =>
    if attrs = [] then fallbackBuild tl
    else
      match buildProvider attrs with
      | some p => p :: fallbackBuild tl
      | none => fallbackBuild tl

/-- The whole tolerant fallback: regex marker extraction, then per-marker
attribute extraction and record building. -/
def fallbackProviders (content : List Char) : List Provider :=
  fallbackBuild ((scanMarkers content.length content).map extractAttrs)

/-- Lines 92-95: strip PHP warnings preceding the `<?xml` declaration
(`content[xml_start:]` only when `find` returns a positive index). -/
def stripPhp (content : List Char) : List Char :=
  match pyFind (("<?xml").toList) content with
  | some i => if 0 < i then content.drop i else content
  | none => content

namespace vfc_cli

/-- `fetch_providers` of `vfc_cli.py`: one request, strip leading PHP
warnings, strict XML parse with regex fallback on `ET.ParseError`; any
exception reaching the outer handler (network failure, HTTP error status,
`ValueError` in the strict marker loop) yields `[]`.  `xmlParse` stands for
`ET.fromstring` + `findall('marker')`. -/
def fetch_providers (xmlParse : String → Option (List Attrs))
    (resp : FetchResponse) : List Provider :=
  match resp with
  | FetchResponse.netFailure => []
  | FetchResponse.httpError _ => []
  | FetchResponse.success body =>
    let content := stripPhp body.toList
    match xmlParse (String.mk content) with
    | some markers =>
      match buildStrict markers with
      | Except.ok ps => ps
      | Except.error _ => []
    | none => fallbackProviders content

end vfc_cli

/-! ### Deduplication and merge (shared by both scripts) -/

/-- The dedup key `f"{provider['name']}|{provider['address']}"`. -/
def dedupKey (p : Provider) : String :=
  p.name ++ "|" ++ p.address

/-- One iteration of the accumulation loop: `if key not in all_providers:
all_providers[key] = provider`.  The accumulator is the `all_providers` dict
in insertion order. -/
def insertUnique (acc : List (String × Provider)) (p : Provider) :
    List (String × Provider) :=
  if acc.any (fun e => e.1 == dedupKey p) then acc
  else acc ++ [(dedupKey p, p)]

/-- Merge one fetched batch into the accumulator. -/
def mergeInto (acc : List (String × Provider)) (ps : List Provider) :
    List (String × Provider) :=
  ps.foldl insertUnique acc

namespace vfc_cli

/-- `filter_by_county`, keyword-list construction (lines 181-188). -/
def countyKeywords (county_name : String) : List String :=
  match List.lookup county_name county_to_cities with
  | some cities => county_name :: cities
  | none => [county_name, pyReplace county_name (" County") ("")]

/-- Case-insensitive substring test `keyword.upper() in address.upper()`
(the source uppercases the address once and each keyword in the `any`). -/
def keywordInAddress (address keyword : String) : Bool :=
  strContainsL (upperChars address.toList) (upperChars keyword.toList)

/-- `filter_by_county` of `vfc_cli.py`. -/
def filter_by_county (providers : List Provider) (county_name : String) :
    List Provider :=
  providers.filter
    (fun p => (countyKeywords county_name).any (keywordInAddress p.address))

/-- The grid offsets of `get_county_search_locations` (source order:
N, S, E, W, NE, NW, SE, SW). -/
def gridOffsets : List (ℚ × ℚ) :=
  [(0.05, 0), (-0.05, 0), (0, 0.05), (0, -0.05),
   (0.05, 0.05), (0.05, -0.05), (-0.05, 0.05), (-0.05, -0.05)]

/-- `get_county_search_locations` of `vfc_cli.py`. -/
def get_county_search_locations (county_name : String) : List (ℚ × ℚ) :=
  match List.lookup county_name CALIFORNIA_COUNTIES with
  | none => []
  | some (base_lat, base_lng) =>
    (base_lat, base_lng) ::
      gridOffsets.map (fun o => (base_lat + o.1, base_lng + o.2))

/-- The optional county-keyword filtering step at the end of
`extract_county_providers` (lines 331-342): keep the filtered list only when
`len(filtered) >= len(providers_list) * 0.5`. -/
def countyFilterStep (providers_list : List Provider) (county_name : String) :
    List Provider :=
  let filtered := filter_by_county providers_list county_name
  if providers_list.length ≤ 2 * filtered.length then filtered
  else providers_list

/-- `extract_county_providers` of `vfc_cli.py`.  `fetch` abstracts
`fetch_providers` applied at a query point (its output depends on the remote
service); the function never calls it for a county absent from the table. -/
def extract_county_providers (county_name : String) (radius : Nat)
    (fetch : ℚ → ℚ → Nat → List Provider) : List Provider :=
  match List.lookup county_name CALIFORNIA_COUNTIES with
  | none => []
  | some _ =>
    let search_locations := get_county_search_locations county_name
    let all_providers :=
      search_locations.foldl
        (fun acc loc => mergeInto acc (fetch loc.1 loc.2 radius)) []
    let providers_list := all_providers.map Prod.snd
    if providers_list = [] then []
    else countyFilterStep providers_list county_name

end vfc_cli

namespace scrape_vfc_providers

/-- `CALIFORNIA_LOCATIONS` of `scrape_vfc_providers.py`. -/
def CALIFORNIA_LOCATIONS : List (ℚ × ℚ) := [
  (37.4419, -121.5419),
  (34.0522, -118.2437),
  (32.7157, -117.1611),
  (38.5816, -121.4944),
  (37.7749, -122.4194),
  (36.1699, -115.1398),
  (35.3733, -119.0187),
  (38.5407, -121.7584),
  (36.9750, -122.0306),
  (33.9533, -117.3962),
  (34.0689, -118.4452),
  (37.3382, -121.8863),
  (40.5865, -122.3917),
  (35.2828, -120.6596),
  (36.7372, -119.7871),
  (33.6846, -117.8265)]

/-- `fetch_providers` of `scrape_vfc_providers.py`: strict XML parsing only;
every exception (network, HTTP status, `ET.ParseError`, `ValueError` from
`float`) reaches the single outer handler and yields `[]`. -/
def fetch_providers (xmlParse : String → Option (List Attrs))
    (resp : FetchResponse) : List Provider :=
  match resp with
  | FetchResponse.netFailure => []
  | FetchResponse.httpError _ => []
  | FetchResponse.success body =>
    match xmlParse body with
    | some markers =>
      match buildStrict markers with
      | Except.ok ps => ps
      | Except.error _ => []
    | none => []

/-- `get_all_providers` of `scrape_vfc_providers.py`: merge the 16 fixed
locations at radius 500, then one state-center query at radius 1000; output
is the dict's values.  `fetch` abstracts `fetch_providers` at a query
point. -/
def get_all_providers (fetch : ℚ → ℚ → Nat → List Provider) : List Provider :=
  let all0 :=
    CALIFORNIA_LOCATIONS.foldl
      (fun acc loc => mergeInto acc (fetch loc.1 loc.2 500)) []
  let all1 := mergeInto all0 (fetch (36.7783) (-119.4179) 1000)
  all1.map Prod.snd

end scrape_vfc_providers

namespace batch_extract_all_counties

/-- Possible outcomes of one `extract_county_providers` call as seen by the
batch loop's `try`: a normal return value, an unexpected exception, or a
`KeyboardInterrupt`. -/
inductive CountyOutcome where
  | ok (ps : List Provider) : CountyOutcome
  | exn : CountyOutcome
  | interrupt : CountyOutcome
deriving DecidableEq

/-- `save_county_json` filename: `county_name.replace(' ', '_').lower() +
'.json'`. -/
def countyFile (county_name : String) : String :=
  String.mk (((county_name.toList).map
    (fun c => if c = ' ' then '_' else c)).map Char.toLower) ++ ".json"

/-- Lexicographic comparison of exploded strings by code point, with a
proper prefix ordered first — the order Python's `sorted` uses on `str`. -/
def lexLe : List Char → List Char → Bool
  | [], _ => true
  | _ :: _, [] => false
  | a :: as, b :: bs => if a = b then lexLe as bs else decide (a < b)

/-- `sorted(...)` on strings (a stable sort, like Python's). -/
def pySorted (l : List String) : List String :=
  List.insertionSort (fun a b => lexLe a.toList b.toList = true) l

/-- The mutable state of the batch loop: files written so far (in write
order, with contents), `successful_counties` and `failed_counties`. -/
structure BatchState where
  files : List (String × List Provider)
  successful : Nat
  failed : List String
deriving DecidableEq

/-- The per-county loop of `extract_all_counties` (lines 61-116):
a non-empty result is saved and counted successful; an empty result writes
an empty file and marks the county failed; an unexpected exception writes an
empty file, marks the county failed and continues; a `KeyboardInterrupt`
stops immediately with `sys.exit(1)` (the returned exit code `some 1`). -/
def runCounties (run : String → CountyOutcome) :
    List String → BatchState → BatchState × Option Nat
  | [], st => (st, none)
  | c :: rest, st =>
    match run c with
    | CountyOutcome.interrupt => (st, some 1)
    | CountyOutcome.ok ps =>
      if ps = [] then
        runCounties run rest
          ⟨st.files ++ [(countyFile c, [])], st.successful, st.failed ++ [c]⟩
      else
        runCounties run rest
          ⟨st.files ++ [(countyFile c, ps)], st.successful + 1, st.failed⟩
    | CountyOutcome.exn =>
      runCounties run rest
        ⟨st.files ++ [(countyFile c, [])], st.successful, st.failed ++ [c]⟩

/-- `extract_all_counties`: iterate the sorted county names; the summary
reports `successful_counties` and `len(failed_counties)` from the final
state. -/
def extract_all_counties (table : List String)
    (run : String → CountyOutcome) : BatchState × Option Nat :=
  runCounties run (pySorted table) ⟨[], 0, []⟩

end batch_extract_all_counties

/-! ### Invariants of the deduplicating accumulator -/

/-- Invariant of the `all_providers` dict: every stored key is the dedup key
of its value, and keys are pairwise distinct. -/
def goodAcc (acc : List (String × Provider)) : Prop :=
  (∀ e ∈ acc, e.1 = dedupKey e.2) ∧ (acc.map Prod.fst).Nodup

/-- No two records of the list agree on both name and address. -/
def noDupNameAddr (l : List Provider) : Prop :=
  l.Pairwise (fun p q => ¬(p.name = q.name ∧ p.address = q.address))

theorem goodAcc_nil : goodAcc [] := by
  constructor
  · intro e he; cases he
  · simp

theorem insertUnique_good {acc : List (String × Provider)} (p : Provider)
    (h : goodAcc acc) : goodAcc (insertUnique acc p) := by
  unfold insertUnique
  cases hmem : acc.any (fun e => e.1 == dedupKey p) with
  | true => simpa [hmem] using h
  | false =>
    simp only [hmem, Bool.false_eq_true, if_false]
    obtain ⟨h1, h2⟩ := h
    refine ⟨?_, ?_⟩
    · intro e he
      rcases List.mem_append.mp he with he | he
      · exact h1 e he
      · simp at he; subst he; rfl
    · have hnot : dedupKey p ∉ acc.map Prod.fst := by
        intro hin
        rcases List.mem_map.mp hin with ⟨e, he, hke⟩
        have hTrue : acc.any (fun e => e.1 == dedupKey p) = true :=
          List.any_eq_true.mpr
            ⟨e, he, by rw [hke]; exact beq_self_eq_true _⟩
        rw [hmem] at hTrue
        exact Bool.false_ne_true hTrue
      simp only [List.map_append, List.map_cons, List.map_nil]
      exact List.Nodup.append h2 (List.nodup_singleton _)
        (by intro a ha hb; simp at hb; subst hb; exact hnot ha)

theorem mergeInto_good {acc : List (String × Provider)} (ps : List Provider)
    (h : goodAcc acc) : goodAcc (mergeInto acc ps) := by
  induction ps generalizing acc with
  | nil => exact h
  | cons p tl ih => exact ih (insertUnique_good p h)

theorem foldl_mergeInto_good {α : Type} (xs : List α)
    (f : α → List Provider) (acc : List (String × Provider))
    (h : goodAcc acc) :
    goodAcc (xs.foldl (fun a x => mergeInto a (f x)) acc) := by
  induction xs generalizing acc with
  | nil => exact h
  | cons x tl ih => exact ih _ (mergeInto_good (f x) h)

theorem goodAcc_values_noDup {acc : List (String × Provider)}
    (h : goodAcc acc) : noDupNameAddr (acc.map Prod.snd) := by
  obtain ⟨h1, h2⟩ := h
  have hpw : acc.Pairwise (fun a b => a.1 ≠ b.1) :=
    (List.pairwise_map).mp h2
  have hkey : acc.Pairwise (fun a b => dedupKey a.2 ≠ dedupKey b.2) := by
    refine hpw.imp_of_mem ?_
    intro a b ha hb hne
    rw [h1 a ha, h1 b hb] at hne
    exact hne
  unfold noDupNameAddr
  rw [List.pairwise_map]
  refine hkey.imp ?_
  intro a b hne hcon
  apply hne
  unfold dedupKey
  rw [hcon.1, hcon.2]

theorem noDupNameAddr_filterStep (l : List Provider) (c : String)
    (h : noDupNameAddr l) : noDupNameAddr (vfc_cli.countyFilterStep l c) := by
  unfold vfc_cli.countyFilterStep
  dsimp only
  split
  · exact List.Pairwise.sublist (List.filter_sublist _) h
  · exact h

/-- C1: for every sequence of provider lists accumulated by the merge step
(in `extract_county_providers` or `get_all_providers`), the resulting output
list contains no two entries whose (name, address) string pairs are both
identical. -/
theorem claim1_merge_output_no_duplicate_pairs :
    (∀ (county : String) (radius : Nat) (fetch : ℚ → ℚ → Nat → List Provider),
      noDupNameAddr (vfc_cli.extract_county_providers county radius fetch)) ∧
    (∀ fetch : ℚ → ℚ → Nat → List Provider,
      noDupNameAddr (scrape_vfc_providers.get_all_providers fetch)) := by
  constructor
  · intro county radius fetch
    unfold vfc_cli.extract_county_providers
    cases hc : List.lookup county CALIFORNIA_COUNTIES with
    | none => exact List.Pairwise.nil
    | some v =>
      dsimp only
      split
      · exact List.Pairwise.nil
      · exact noDupNameAddr_filterStep _ _
          (goodAcc_values_noDup (foldl_mergeInto_good _
            (fun loc : ℚ × ℚ => fetch loc.1 loc.2 radius) [] goodAcc_nil))
  · intro fetch
    unfold scrape_vfc_providers.get_all_providers
    exact goodAcc_values_noDup
      (mergeInto_good _ (foldl_mergeInto_good _
        (fun loc : ℚ × ℚ => fetch loc.1 loc.2 500) [] goodAcc_nil))

/-- C7: when a record's (name, address) key equals the key of an
already-accumulated record, the later record is discarded entirely
(first-seen wins, nothing in the accumulator changes); in particular a
response containing two markers with the same name and address merges to
exactly one record. -/
theorem claim7_first_seen_wins :
    (∀ (acc : List (String × Provider)) (p : Provider),
      (∃ e ∈ acc, e.1 = dedupKey p) → insertUnique acc p = acc) ∧
    (∀ p q : Provider, p.name = q.name → p.address = q.address →
      (mergeInto [] [p, q]).map Prod.snd = [p]) := by
  constructor
  · rintro acc p ⟨e, he, hk⟩
    unfold insertUnique
    have hTrue : acc.any (fun e => e.1 == dedupKey p) = true :=
      List.any_eq_true.mpr ⟨e, he, by rw [hk]; exact beq_self_eq_true _⟩
    simp [hTrue]
  · intro p q hn ha
    have hkey : dedupKey q = dedupKey p := by
      unfold dedupKey
      rw [hn, ha]
    simp [mergeInto, insertUnique, hkey]

/-- A concrete provider record used by witnesses. -/
def sampleProvider : Provider :=
  { name := "Clinic", address := "123 Main St, Oakland, CA", phone := "555",
    type := "Public", lat := 1, lng := 2, distance := 3 }

/-- Witness for C7 at a concrete record. -/
theorem claim7_first_seen_wins_witness :
    insertUnique [(dedupKey sampleProvider, sampleProvider)] sampleProvider
        = [(dedupKey sampleProvider, sampleProvider)] ∧
    (mergeInto [] [sampleProvider, sampleProvider]).map Prod.snd
        = [sampleProvider] :=
  ⟨claim7_first_seen_wins.1 _ _ ⟨_, List.mem_singleton_self _, rfl⟩,
   claim7_first_seen_wins.2 _ _ rfl rfl⟩

/-- C2: the county keyword filter step never returns fewer than half of the
input's elements: when the filtered subset has fewer than 50% of the input's
elements the unfiltered input is returned unchanged, otherwise the filtered
subset is returned. -/
theorem claim2_filter_guard :
    ∀ (ps : List Provider) (c : String),
      ps.length ≤ 2 * (vfc_cli.countyFilterStep ps c).length ∧
      (2 * (vfc_cli.filter_by_county ps c).length < ps.length →
        vfc_cli.countyFilterStep ps c = ps) ∧
      (ps.length ≤ 2 * (vfc_cli.filter_by_county ps c).length →
        vfc_cli.countyFilterStep ps c = vfc_cli.filter_by_county ps c) := by
  intro ps c
  unfold vfc_cli.countyFilterStep
  dsimp only
  by_cases h : ps.length ≤ 2 * (vfc_cli.filter_by_county ps c).length
  · rw [if_pos h]
    exact ⟨h, fun hlt => absurd h (by omega), fun _ => rfl⟩
  · rw [if_neg h]
    exact ⟨by omega, fun _ => rfl, fun hge => absurd hge h⟩

/-- Witness for C2 at a concrete list and county. -/
theorem claim2_filter_guard_witness :
    vfc_cli.countyFilterStep [sampleProvider] ("Alameda")
        = vfc_cli.filter_by_county [sampleProvider] ("Alameda") ∧
    [sampleProvider].length
        ≤ 2 * (vfc_cli.countyFilterStep [sampleProvider] ("Alameda")).length :=
  ⟨(claim2_filter_guard [sampleProvider] ("Alameda")).2.2 (by decide),
   (claim2_filter_guard [sampleProvider] ("Alameda")).1⟩

/-- The keyword set as the claim words it: the county name itself; for
counties present in `county_to_cities`, that county's listed city names; for
absent counties, the fallback keyword obtained by stripping the word
" County" from the county name.  Written from the claim, to be compared with
`vfc_cli.countyKeywords`, which is written from the source. -/
def claimKeywordSet (county_name : String) : List String :=
  match List.lookup county_name county_to_cities with
  | some cities => county_name :: cities
  | none => [county_name, pyReplace county_name (" County") ("")]

/-- C5: `filter_by_county` retains exactly the records whose address contains
one of the claim's keywords as a case-insensitive substring. -/
theorem claim5_filter_by_county_exact :
    ∀ (ps : List Provider) (c : String),
      vfc_cli.filter_by_county ps c =
        ps.filter (fun p => (claimKeywordSet c).any (fun k =>
          strContainsL (upperChars p.address.toList) (upperChars k.toList))) ∧
      ∀ p : Provider,
        p ∈ vfc_cli.filter_by_county ps c ↔
          p ∈ ps ∧ (claimKeywordSet c).any (fun k =>
            strContainsL (upperChars p.address.toList)
              (upperChars k.toList)) = true := by
  intro ps c
  have hkw : claimKeywordSet c = vfc_cli.countyKeywords c := rfl
  have heq : vfc_cli.filter_by_county ps c =
      ps.filter (fun p => (claimKeywordSet c).any (fun k =>
        strContainsL (upperChars p.address.toList) (upperChars k.toList))) := by
    rw [hkw]
    rfl
  exact ⟨heq, fun p => by rw [heq]; exact List.mem_filter⟩

/-- C6: for every county in the table, the planner returns exactly nine
query points: the reference coordinate first, then eight points offset by the
fixed delta 0.05 degrees in the directions N, S, E, W, NE, NW, SE, SW. -/
theorem claim6_nine_point_grid :
    ∀ (c : String) (la lo : ℚ),
      List.lookup c CALIFORNIA_COUNTIES = some (la, lo) →
      vfc_cli.get_county_search_locations c =
        [(la, lo),
         (la + 0.05, lo), (la - 0.05, lo), (la, lo + 0.05), (la, lo - 0.05),
         (la + 0.05, lo + 0.05), (la + 0.05, lo - 0.05),
         (la - 0.05, lo + 0.05), (la - 0.05, lo - 0.05)] ∧
      (vfc_cli.get_county_search_locations c).length = 9 := by
  intro c la lo h
  have hlist : vfc_cli.get_county_search_locations c =
      [(la, lo),
       (la + 0.05, lo), (la - 0.05, lo), (la, lo + 0.05), (la, lo - 0.05),
       (la + 0.05, lo + 0.05), (la + 0.05, lo - 0.05),
       (la - 0.05, lo + 0.05), (la - 0.05, lo - 0.05)] := by
    unfold vfc_cli.get_county_search_locations
    rw [h]
    simp [vfc_cli.gridOffsets, sub_eq_add_neg]
  exact ⟨hlist, by rw [hlist]; rfl⟩

/-- Witness for C6 at the first county of the table. -/
theorem claim6_nine_point_grid_witness :
    vfc_cli.get_county_search_locations ("Alameda") =
      [((37.8044 : ℚ), (-122.2712 : ℚ)),
       (37.8044 + 0.05, -122.2712), (37.8044 - 0.05, -122.2712),
       (37.8044, -122.2712 + 0.05), (37.8044, -122.2712 - 0.05),
       (37.8044 + 0.05, -122.2712 + 0.05), (37.8044 + 0.05, -122.2712 - 0.05),
       (37.8044 - 0.05, -122.2712 + 0.05),
       (37.8044 - 0.05, -122.2712 - 0.05)] ∧
    (vfc_cli.get_county_search_locations ("Alameda")).length = 9 :=
  claim6_nine_point_grid ("Alameda") 37.8044 (-122.2712) rfl

/-- C10: a county name absent from `CALIFORNIA_COUNTIES` yields an empty
query-point list, and `extract_county_providers` returns `[]` for it without
performing any remote query (the result does not depend on `fetch`). -/
theorem claim10_unknown_county :
    ∀ c : String, List.lookup c CALIFORNIA_COUNTIES = none →
      vfc_cli.get_county_search_locations c = [] ∧
      ∀ (radius : Nat) (fetch : ℚ → ℚ → Nat → List Provider),
        vfc_cli.extract_county_providers c radius fetch = [] := by
  intro c h
  constructor
  · unfold vfc_cli.get_county_search_locations
    rw [h]
  · intro radius fetch
    unfold vfc_cli.extract_county_providers
    rw [h]

/-- Witness for C10 at a name outside the table. -/
theorem claim10_unknown_county_witness :
    vfc_cli.get_county_search_locations ("Atlantis") = [] ∧
    vfc_cli.extract_county_providers ("Atlantis") 100
      (fun _ _ _ => [sampleProvider]) = [] :=
  ⟨(claim10_unknown_county ("Atlantis") rfl).1,
   (claim10_unknown_county ("Atlantis") rfl).2 100 _⟩

/-- C3: network-level failures, HTTP non-success statuses and parse-level
failures all make `fetch_providers` return `[]` (never an exception: the
model is total); in particular an empty response body yields `[]` — the
strict parser fails on it and the fallback finds no markers.  The model
consumes exactly one `FetchResponse`: no retry exists. -/
theorem claim3_fetch_error_containment :
    ∀ (xmlParse : String → Option (List Attrs)) (code : Nat),
      vfc_cli.fetch_providers xmlParse FetchResponse.netFailure = [] ∧
      vfc_cli.fetch_providers xmlParse (FetchResponse.httpError code) = [] ∧
      (∀ (body : String) (markers : List Attrs),
        xmlParse (String.mk (stripPhp body.toList)) = some markers →
        buildStrict markers = Except.error () →
        vfc_cli.fetch_providers xmlParse (FetchResponse.success body) = []) ∧
      (xmlParse ("") = none →
        vfc_cli.fetch_providers xmlParse (FetchResponse.success ("")) = []) := by
  intro xmlParse code
  refine ⟨rfl, rfl, ?_, ?_⟩
  · intro body markers h1 h2
    unfold vfc_cli.fetch_providers
    dsimp only
    rw [h1]
    dsimp only
    rw [h2]
  · intro h
    unfold vfc_cli.fetch_providers
    dsimp only
    rw [show String.mk (stripPhp (String.toList (""))) = ("") from rfl, h]
    rfl

/-- Witness for C3: all three failure modes at concrete inputs. -/
theorem claim3_fetch_error_containment_witness :
    vfc_cli.fetch_providers (fun _ => none) FetchResponse.netFailure = [] ∧
    vfc_cli.fetch_providers (fun _ => none) (FetchResponse.httpError 500) = [] ∧
    vfc_cli.fetch_providers (fun _ => some [[(("lat"), ("x"))]])
      (FetchResponse.success ("<z>")) = [] ∧
    vfc_cli.fetch_providers (fun _ => none) (FetchResponse.success ("")) = [] :=
  ⟨(claim3_fetch_error_containment (fun _ => none) 500).1,
   (claim3_fetch_error_containment (fun _ => none) 500).2.1,
   (claim3_fetch_error_containment (fun _ => some [[(("lat"), ("x"))]]) 500).2.2.1
     ("<z>") [[(("lat"), ("x"))]] rfl rfl,
   (claim3_fetch_error_containment (fun _ => none) 500).2.2.2 rfl⟩

/-- Unfolding equation of `fallbackBuild` on a non-empty list. -/
theorem fallbackBuild_cons (a : Attrs) (l : List Attrs) :
    fallbackBuild (a :: l) =
      if a = [] then fallbackBuild l
      else
        match buildProvider a with
        | some p => p :: fallbackBuild l
        | none => fallbackBuild l := rfl

/-- C4 counterexample: a well-formed response whose marker carries
`lat="abc"` (present but unparsable).  The claim requires the record to be
included with `lat = 0`; instead the `ValueError` raised by `float` in the
strict marker loop escapes to the outer handler and the whole fetch returns
`[]`, so no record at all is produced. -/
theorem claim4_counterexample :
    vfc_cli.fetch_providers
      (fun _ => some [[(("name"), ("A")), (("address"), ("B")),
        (("lat"), ("abc"))]])
      (FetchResponse.success ("<x>")) = [] ∧
    ({ name := "A", address := "B", phone := "", type := "",
       lat := 0, lng := 0, distance := 0 } : Provider) ∉
      vfc_cli.fetch_providers
        (fun _ => some [[(("name"), ("A")), (("address"), ("B")),
          (("lat"), ("abc"))]])
        (FetchResponse.success ("<x>")) := by
  constructor
  · rfl
  · rw [show vfc_cli.fetch_providers
        (fun _ => some [[(("name"), ("A")), (("address"), ("B")),
          (("lat"), ("abc"))]])
        (FetchResponse.success ("<x>")) = [] from rfl]
    exact List.not_mem_nil _

/-- C4 amended: each numeric field (`lat`, `lng`, `distance`) whose
attribute is missing is individually set to 0, and a record whose three
numeric fields all evaluate (each one either missing, hence 0, or parsable)
is included with exactly those per-field values; but a numeric attribute
that is present and unparsable as a number makes the record construction
fail, which drops just that record in the tolerant-fallback path and empties
the entire result (an error) in the strict path. -/
theorem claim4_numeric_defaults_amended :
    ∀ attrs : Attrs,
      (∀ k : String, List.lookup k attrs = none →
        attrGetNum attrs k = some 0) ∧
      (∀ la ln d : ℚ,
        attrGetNum attrs ("lat") = some la →
        attrGetNum attrs ("lng") = some ln →
        attrGetNum attrs ("distance") = some d →
        buildProvider attrs = some
          { name := attrGet attrs ("name"),
            address := attrGet attrs ("address"),
            phone := attrGet attrs ("phone"), type := attrGet attrs ("type"),
            lat := la, lng := ln, distance := d }) ∧
      (∀ k s : String,
        (k = ("lat") ∨ k = ("lng") ∨ k = ("distance")) →
        List.lookup k attrs = some s → pyFloat s = none →
        buildProvider attrs = none) ∧
      (buildProvider attrs = none →
        (∀ ms : List Attrs, attrs ∈ ms →
            buildStrict ms = Except.error ()) ∧
        (∀ pre post : List Attrs,
            fallbackBuild (pre ++ attrs :: post)
              = fallbackBuild (pre ++ post))) := by
  intro attrs
  refine ⟨?_, ?_, ?_, ?_⟩
  · intro k h
    unfold attrGetNum
    rw [h]
  · intro la ln d h1 h2 h3
    unfold buildProvider
    rw [h1, h2, h3]
  · intro k s hk hlk hpf
    have hn : attrGetNum attrs k = none := by
      unfold attrGetNum
      rw [hlk]
      dsimp only
      exact hpf
    rcases hk with hk | hk | hk <;> subst hk
    · unfold buildProvider
      rw [hn]
    · unfold buildProvider
      rw [hn]
      cases hx : attrGetNum attrs ("lat") with
      | none => rfl
      | some la => rfl
    · unfold buildProvider
      rw [hn]
      cases hx : attrGetNum attrs ("lat") with
      | none => rfl
      | some la =>
        cases hy : attrGetNum attrs ("lng") with
        | none => rfl
        | some ln => rfl
  · intro hnone
    constructor
    · intro ms hmem
      induction ms with
      | nil => cases hmem
      | cons m tl ih =>
        rcases List.mem_cons.mp hmem with hm | hm
        · subst hm
          unfold buildStrict
          rw [hnone]
        · unfold buildStrict
          cases hb : buildProvider m with
          | some p => rw [ih hm]
          | none => rfl
    · intro pre post
      induction pre with
      | nil =>
        rw [List.nil_append, List.nil_append, fallbackBuild_cons]
        by_cases ha : attrs = []
        · rw [if_pos ha]
        · rw [if_neg ha, hnone]
      | cons a tl ih =>
        rw [List.cons_append, List.cons_append, fallbackBuild_cons,
          fallbackBuild_cons]
        by_cases ha : a = []
        · rw [if_pos ha, if_pos ha]
          exact ih
        · rw [if_neg ha, if_neg ha]
          cases hb : buildProvider a with
          | some p => simp only [hb]; rw [ih]
          | none => simp only [hb]; exact ih

/-- Witness for C4's amended statement: a marker with `lat` present and
parsable while `lng` and `distance` are missing, and a marker whose `lng` is
present but not a number. -/
theorem claim4_numeric_defaults_amended_witness :
    attrGetNum [(("name"), ("A")), (("lat"), ("7"))] ("distance")
        = some 0 ∧
    buildProvider [(("name"), ("A")), (("lat"), ("7"))] = some
      { name := "A", address := "", phone := "", type := "",
        lat := 7, lng := 0, distance := 0 } ∧
    buildProvider [(("lng"), ("abc"))] = none ∧
    buildStrict [[(("lng"), ("abc"))]] = Except.error () ∧
    fallbackBuild [[(("lng"), ("abc"))]] = fallbackBuild [] :=
  ⟨(claim4_numeric_defaults_amended [(("name"), ("A")), (("lat"), ("7"))]).1
     ("distance") rfl,
   (claim4_numeric_defaults_amended [(("name"), ("A")), (("lat"), ("7"))]).2.1
     7 0 0 rfl rfl rfl,
   (claim4_numeric_defaults_amended [(("lng"), ("abc"))]).2.2.1
     ("lng") ("abc") (Or.inr (Or.inl rfl)) rfl (by decide),
   ((claim4_numeric_defaults_amended [(("lng"), ("abc"))]).2.2.2
      ((claim4_numeric_defaults_amended [(("lng"), ("abc"))]).2.2.1
        ("lng") ("abc") (Or.inr (Or.inl rfl)) rfl (by decide))).1
     [[(("lng"), ("abc"))]] (List.mem_singleton_self _),
   ((claim4_numeric_defaults_amended [(("lng"), ("abc"))]).2.2.2
      ((claim4_numeric_defaults_amended [(("lng"), ("abc"))]).2.2.1
        ("lng") ("abc") (Or.inr (Or.inl rfl)) rfl (by decide))).2
     [] []⟩

/-- A malformed response body: the `markers` element is never closed, so
strict XML parsing fails, while the self-closing marker carries
double-quoted `name` and `address` attributes. -/
def malformedBody : String :=
  "<?xml version=\"1.0\"?><markers><marker name=\"A\" address=\"B\"/>"

/-- A marker-tag body carrying five double-quoted attributes. -/
def fiveAttrBody : List Char :=
  ("a=\"1\" b=\"2\" c=\"3\" d=\"4\" e=\"5\"").toList

/-- C8: on strict-parse failure the tolerant fallback pattern-matches
attribute substrings out of marker tags, consulting double-quoted attributes
first and single-quoted ones only as a secondary attempt (skipped whenever
the double-quoted pass already found at least 5 attributes); on a malformed
body missing its closing tag it recovers the double-quoted `name` and
`address`. -/
theorem claim8_tolerant_fallback :
    (∀ m : List Char,
      5 ≤ (dictOf (scanAttrs '"' m.length m) []).length →
      extractAttrs m = dictOf (scanAttrs '"' m.length m) []) ∧
    (∀ xmlParse : String → Option (List Attrs),
      xmlParse malformedBody = none →
      vfc_cli.fetch_providers xmlParse (FetchResponse.success malformedBody)
        = [{ name := "A", address := "B", phone := "", type := "",
             lat := 0, lng := 0, distance := 0 }]) := by
  constructor
  · intro m h
    unfold extractAttrs
    rw [if_neg (by omega)]
  · intro xmlParse h
    unfold vfc_cli.fetch_providers
    dsimp only
    rw [show String.mk (stripPhp malformedBody.toList) = malformedBody
      from rfl, h]
    decide

/-- Witness for C8: the double-quoted pass alone on a five-attribute body,
and the concrete malformed-body recovery. -/
theorem claim8_tolerant_fallback_witness :
    extractAttrs fiveAttrBody
      = dictOf (scanAttrs '"' fiveAttrBody.length fiveAttrBody) [] ∧
    vfc_cli.fetch_providers (fun _ => none)
      (FetchResponse.success malformedBody)
      = [{ name := "A", address := "B", phone := "", type := "",
           lat := 0, lng := 0, distance := 0 }] :=
  ⟨claim8_tolerant_fallback.1 fiveAttrBody (by decide),
   claim8_tolerant_fallback.2 (fun _ => none) rfl⟩

namespace batch_extract_all_counties

/-- Without an interrupt the loop never sets an exit code. -/
theorem runCounties_exit_none (run : String → CountyOutcome)
    (h : ∀ x, run x ≠ CountyOutcome.interrupt) :
    ∀ (l : List String) (st : BatchState), (runCounties run l st).2 = none := by
  intro l
  induction l with
  | nil => intro st; rfl
  | cons c tl ih =>
    intro st
    unfold runCounties
    cases hr : run c with
    | interrupt => exact absurd hr (h c)
    | ok ps =>
      dsimp only
      by_cases hps : ps = []
      · rw [if_pos hps]; exact ih _
      · rw [if_neg hps]; exact ih _
    | exn => exact ih _

/-- Without an interrupt, one file is written per county. -/
theorem runCounties_files_length (run : String → CountyOutcome)
    (h : ∀ x, run x ≠ CountyOutcome.interrupt) :
    ∀ (l : List String) (st : BatchState),
      (runCounties run l st).1.files.length = st.files.length + l.length := by
  intro l
  induction l with
  | nil => intro st; rfl
  | cons c tl ih =>
    intro st
    unfold runCounties
    cases hr : run c with
    | interrupt => exact absurd hr (h c)
    | ok ps =>
      dsimp only
      by_cases hps : ps = []
      · rw [if_pos hps, ih]
        simp
        omega
      · rw [if_neg hps, ih]
        simp
        omega
    | exn =>
      rw [ih]
      simp
      omega

/-- Files already written stay written. -/
theorem runCounties_files_mono (run : String → CountyOutcome)
    (e : String × List Provider) :
    ∀ (l : List String) (st : BatchState), e ∈ st.files →
      e ∈ (runCounties run l st).1.files := by
  intro l
  induction l with
  | nil => intro st hst; exact hst
  | cons c tl ih =>
    intro st hst
    unfold runCounties
    cases hr : run c with
    | interrupt => exact hst
    | ok ps =>
      dsimp only
      by_cases hps : ps = []
      · rw [if_pos hps]
        exact ih _ (List.mem_append_left _ hst)
      · rw [if_neg hps]
        exact ih _ (List.mem_append_left _ hst)
    | exn => exact ih _ (List.mem_append_left _ hst)

/-- Counties already marked failed stay marked. -/
theorem runCounties_failed_mono (run : String → CountyOutcome) (c0 : String) :
    ∀ (l : List String) (st : BatchState), c0 ∈ st.failed →
      c0 ∈ (runCounties run l st).1.failed := by
  intro l
  induction l with
  | nil => intro st hst; exact hst
  | cons c tl ih =>
    intro st hst
    unfold runCounties
    cases hr : run c with
    | interrupt => exact hst
    | ok ps =>
      dsimp only
      by_cases hps : ps = []
      · rw [if_pos hps]
        exact ih _ (List.mem_append_left _ hst)
      · rw [if_neg hps]
        exact ih _ hst
    | exn => exact ih _ (List.mem_append_left _ hst)

/-- A county whose processing raises gets an empty-list output file and is
marked failed, while the loop continues. -/
theorem runCounties_exn_handled (run : String → CountyOutcome)
    (h : ∀ x, run x ≠ CountyOutcome.interrupt) (c : String)
    (hc : run c = CountyOutcome.exn) :
    ∀ (l : List String) (st : BatchState), c ∈ l →
      (countyFile c, []) ∈ (runCounties run l st).1.files ∧
      c ∈ (runCounties run l st).1.failed := by
  intro l
  induction l with
  | nil => intro st hmem; cases hmem
  | cons c1 tl ih =>
    intro st hmem
    rcases List.mem_cons.mp hmem with hm | hm
    · subst hm
      unfold runCounties
      rw [hc]
      constructor
      · exact runCounties_files_mono run _ tl _
          (List.mem_append_right _ (List.mem_singleton_self _))
      · exact runCounties_failed_mono run _ tl _
          (List.mem_append_right _ (List.mem_singleton_self _))
    · unfold runCounties
      cases hr : run c1 with
      | interrupt => exact absurd hr (h c1)
      | ok ps =>
        dsimp only
        by_cases hps : ps = []
        · rw [if_pos hps]; exact ih _ hm
        · rw [if_neg hps]; exact ih _ hm
      | exn => exact ih _ hm

end batch_extract_all_counties

namespace batch_extract_all_counties

/-- C9: an unexpected exception while processing one county is caught — that
county gets an empty-list output file and is marked failed — and the batch
continues with the remaining counties of the lexicographically sorted table,
finishing with one file per county and no abnormal exit; on the concrete
2-county table where one county's query raises, the run produces two output
files (one populated, one empty) and a summary of one success and one
failure; a keyboard interrupt aborts immediately with exit code 1. -/
theorem claim9_batch_error_handling :
    (∀ (table : List String) (run : String → CountyOutcome),
      (∀ x, run x ≠ CountyOutcome.interrupt) →
      ∀ c ∈ table, run c = CountyOutcome.exn →
        (countyFile c, []) ∈ (extract_all_counties table run).1.files ∧
        c ∈ (extract_all_counties table run).1.failed ∧
        (extract_all_counties table run).2 = none ∧
        (extract_all_counties table run).1.files.length = table.length) ∧
    (∀ run : String → CountyOutcome,
      run ("Alpha") = CountyOutcome.ok [sampleProvider] →
      run ("Beta") = CountyOutcome.exn →
      extract_all_counties ["Beta", "Alpha"] run =
        (⟨[(("alpha.json"), [sampleProvider]), (("beta.json"), [])],
          1, ["Beta"]⟩, none)) ∧
    (∀ (run : String → CountyOutcome) (c : String) (cs : List String)
        (st : BatchState),
      run c = CountyOutcome.interrupt →
      (runCounties run (c :: cs) st).2 = some 1) := by
  refine ⟨?_, ?_, ?_⟩
  · intro table run hni c hc hexn
    unfold extract_all_counties
    have hperm : pySorted table = List.insertionSort
        (fun a b => lexLe a.toList b.toList = true) table := rfl
    have hp := List.perm_insertionSort
      (fun a b => lexLe a.toList b.toList = true) table
    have hmem : c ∈ pySorted table := by
      rw [hperm]
      exact hp.mem_iff.mpr hc
    obtain ⟨hf, hfail⟩ :=
      runCounties_exn_handled run hni c hexn (pySorted table) ⟨[], 0, []⟩ hmem
    refine ⟨hf, hfail, runCounties_exit_none run hni _ _, ?_⟩
    rw [runCounties_files_length run hni]
    have hlen : (pySorted table).length = table.length := by
      rw [hperm]
      exact hp.length_eq
    simpa using hlen
  · intro run h1 h2
    unfold extract_all_counties
    rw [show pySorted ["Beta", "Alpha"] = ["Alpha", "Beta"] from by decide]
    simp only [runCounties]
    rw [h1, h2]
    dsimp only
    rw [if_neg (by simp : ¬([sampleProvider] : List Provider) = [])]
    rfl
  · intro run c cs st h
    unfold runCounties
    rw [h]

/-- A batch outcome map used by the C9 witness: `Alpha` succeeds with one
provider, `Beta` raises, anything else returns no providers. -/
def sampleRun : String → CountyOutcome :=
  fun c =>
    if c = "Alpha" then CountyOutcome.ok [sampleProvider]
    else if c = "Beta" then CountyOutcome.exn
    else CountyOutcome.ok []

/-- Witness for C9 at the concrete 2-county table. -/
theorem claim9_batch_error_handling_witness :
    (countyFile ("Beta"), []) ∈
      (extract_all_counties ["Beta", "Alpha"] sampleRun).1.files ∧
    extract_all_counties ["Beta", "Alpha"] sampleRun =
      (⟨[(("alpha.json"), [sampleProvider]), (("beta.json"), [])],
        1, ["Beta"]⟩, none) ∧
    (runCounties (fun _ => CountyOutcome.interrupt) ["Gamma"]
      ⟨[], 0, []⟩).2 = some 1 :=
  ⟨(claim9_batch_error_handling.1 ["Beta", "Alpha"] sampleRun
      (fun x => by
        unfold sampleRun
        by_cases hx : x = "Alpha"
        · simp [hx]
        · by_cases hy : x = "Beta"
          · simp [hx, hy]
          · simp [hx, hy])
      ("Beta") (List.mem_cons_self _ _) rfl).1,
   claim9_batch_error_handling.2.1 sampleRun rfl rfl,
   claim9_batch_error_handling.2.2 (fun _ => CountyOutcome.interrupt)
     ("Gamma") [] ⟨[], 0, []⟩ rfl⟩

end batch_extract_all_counties
